import Mathlib

/-!
Shallow embedding of `src/src/engine/nodes/LuaNode.cpp` (Element's scriptable
Lua audio/MIDI node).  The embedded Lua interpreter (sol2's `sol.hpp`, external
to the repository) is abstracted: a `LuaScript` value stands for one script
text together with the interpreter-observable behaviour of executing it and of
the entry-point functions it defines.  Interpreter errors are carried as
`Option String` (the `e.what()` message of the C++ exception); `none` means the
call completes without raising.  C++ control flow that can let an exception
escape a function is modelled by returning the escaping message alongside the
mutated state.
-/

namespace Element

/-- `kv::PortType` restricted to the three types LuaNode produces. -/
inductive PortType
  | Audio
  | Midi
  | Control
deriving DecidableEq

/-- One port descriptor as appended by `kv::PortList::add (type, index, channel,
symbol, name, isInput)`. -/
structure Port where
  type : PortType
  index : Nat
  channel : Nat
  symbol : String
  name : String
  isInput : Bool
deriving DecidableEq

/-- Behaviour of a script's `node_io_ports` function.  `callErr` is the
interpreter error raised by the invocation `sol::table t = f()` itself, which in
the source sits *outside* the `try` block of `addIOPorts`.  The four counts are
the values of `audioIns .. midiOuts` after the guarded field reads complete
(defaults of 0 applied by `get_or`; a caught mid-read error leaves the
remaining counts at 0, so every such outcome is representable here). -/
structure IOPortsDecl where
  callErr : Option String
  audioIns : Nat
  audioOuts : Nat
  midiIns : Nat
  midiOuts : Nat
deriving DecidableEq

/-- One parameter table entry that `addParameters` successfully reads.  Only
`name` and `flow` influence the produced port; the source also reads `type`,
`min`, `max` and `default` but discards them (`ignoreUnused`), so they are
omitted here. -/
structure ParamSpec where
  name : Option String
  flow : Option String
deriving DecidableEq

/-- Behaviour of a script's `node_params` function inside `addParameters`'s
`try` block: the declarations read before any interpreter error, and the error
(if any) raised after them.  An error thrown by the invocation `f()` itself is
the case `decls = []`, `errAfter = some _`. -/
structure ParamsDecl where
  decls : List ParamSpec
  errAfter : Option String
deriving DecidableEq

/-- Interpreter-observable behaviour of one script text.  `execOk` is whether
`state.script (text)` runs the chunk without error; the remaining fields
describe the global entry points the chunk leaves behind
(`node_io_ports`, `node_params`, `node_prepare`, `node_render`,
`node_release`); `none` / `false` means the global is nil.  `prepareErr`,
`renderErr` and `releaseErr` are the interpreter errors raised by calling the
respective hook. -/
structure LuaScript where
  text : String
  execOk : Bool
  ioPorts : Option IOPortsDecl
  params : Option ParamsDecl
  hasPrepare : Bool
  prepareErr : Option String
  renderDefined : Bool
  renderErr : Option String
  hasRelease : Bool
  releaseErr : Option String
deriving DecidableEq

/-- `juce::Result`. -/
inductive Result
  | ok
  | fail (msg : String)
deriving DecidableEq

def Result.wasOk : Result → Bool
  | Result.ok => true
  | Result.fail _ => false

def Result.failed (r : Result) : Bool := !r.wasOk

/-- `LuaNode::Context`.  `scr` is the abstract interpreter state: the script
whose globals are installed after a successful `load`.  `hasPrepared` is ghost
state recording that `prepare` ran to completion on a ready context (used to
state the hot-swap invariant). -/
structure Context where
  loaded : Bool
  scr : Option LuaScript
  hasPrepared : Bool
deriving DecidableEq

/-- A freshly constructed `Context` (`std::make_unique<Context>()`). -/
def Context.init : Context :=
  { loaded := false, scr := none, hasPrepared := false }

/-- `bool ready() const { return loaded; }` -/
def Context.ready (c : Context) : Bool := c.loaded

/-- `Context::load`.  Note the source sets `loaded = true` whenever the chunk
executed (`res.valid()`), without checking that `node_render` resolved to a
callable function; on an interpreter error it returns the fixed message
"Couldn't load Lua script" (the captured `errorMsg` local is discarded). -/
def Context.load (c : Context) (s : LuaScript) : Result × Context :=
  if c.ready then (Result.fail "Script already loaded", c)
  else if s.execOk then
    (Result.ok, { c with loaded := true, scr := some s })
  else
    (Result.fail "Couldn't load Lua script", { c with loaded := false, scr := none })

/-- Symbol derivation in `addParameters`:
`name.trim().toLowerCase().replace (" ", "_")`.  `trim`/`toLowerCase` are
modelled character-wise; the replaced pattern is the single space character, so
juce's substring replace coincides with a character map. -/
def trimChars (l : List Char) : List Char :=
  ((l.dropWhile (fun c => c.isWhitespace)).reverse.dropWhile
    (fun c => c.isWhitespace)).reverse

def paramSymbol (nm : String) : String :=
  String.mk (((trimChars nm.toList).map Char.toLower).map
    (fun c => if c = ' ' then '_' else c))

/-- One `for` loop of `addIOPorts`: `count` ports of kind `t`/`inp`, global
indices continuing from `base`, channels restarting at 0, symbol/name built
from the 1-based loop counter. -/
def mkPortRun (t : PortType) (base count : Nat) (slug0 name0 : String)
    (inp : Bool) : List Port :=
  (List.range count).map fun i =>
    { type := t, index := base + i, channel := i,
      symbol := slug0 ++ toString (i + 1), name := name0 ++ toString (i + 1),
      isInput := inp }

/-- `Context::addIOPorts`.  Returns the port list together with the message of
an interpreter error escaping the function: the invocation
`sol::table t = f()` is *outside* the `try` block, so its error propagates to
the caller; errors during the field reads are caught and the four loops still
run with the counts read so far (already folded into `IOPortsDecl`). -/
def Context.addIOPorts (c : Context) (ports : List Port) :
    List Port × Option String :=
  match c.scr with
  | none => (ports, none)
  | some s =>
    match s.ioPorts with
    | none => (ports, none)
    | some d =>
      match d.callErr with
      | some msg => (ports, some msg)
      | none =>
        let a := d.audioIns
        let b := d.audioOuts
        let m := d.midiIns
        let n := d.midiOuts
        (ports
          ++ mkPortRun PortType.Audio 0 a "in_" "In " true
          ++ mkPortRun PortType.Audio a b "out_" "Out " false
          ++ mkPortRun PortType.Midi (a + b) m "midi_in_" "MIDI In " true
          ++ mkPortRun PortType.Midi (a + b + m) n "midi_out_" "MIDI Out " false,
         none)

def paramIsInput (p : ParamSpec) : Bool :=
  decide ((p.flow.getD "input") = "input")

/-- The loop body of `addParameters`: one Control port per successfully read
declaration, global index continuing from `idx`, channel counting inputs and
outputs separately (`inChan++` / `outChan++`). -/
def addParamDecls (decls : List ParamSpec) (idx inChan outChan : Nat) :
    List Port :=
  match decls with
  | [] => []
  | p :: rest =>
    let nm := p.name.getD "Param"
    let sym := paramSymbol nm
    let isInput := paramIsInput p
    let channel := if isInput then inChan else outChan
    { type := PortType.Control, index := idx, channel := channel,
      symbol := sym, name := nm, isInput := isInput }
      :: addParamDecls rest (idx + 1)
          (if isInput then inChan + 1 else inChan)
          (if isInput then outChan else outChan + 1)

/-- `Context::addParameters`.  The whole body (the `f()` call and the loop)
sits inside a `try` whose `catch` swallows the error, so the function never
raises and the ports appended before an error remain. -/
def Context.addParameters (c : Context) (ports : List Port) : List Port :=
  match c.scr with
  | none => ports
  | some s =>
    match s.params with
    | none => ports
    | some pd => ports ++ addParamDecls pd.decls ports.length 0 0

/-- `Context::createPorts`: no-op when not ready; otherwise `addIOPorts` then
`addParameters`.  An error escaping `addIOPorts` escapes `createPorts` (and
`addParameters` is never reached); the by-reference port list then holds
whatever was appended before the throw. -/
def Context.createPorts (c : Context) (ports : List Port) :
    List Port × Option String :=
  if !c.ready then (ports, none)
  else
    let r := c.addIOPorts ports
    match r.2 with
    | some msg => (r.1, some msg)
    | none => (c.addParameters r.1, none)

/-- `Context::prepare (rate, block)`: no-op when not ready; otherwise calls the
script's `node_prepare` hook (unprotected — its interpreter error escapes) and
collects garbage.  The ghost flag `hasPrepared` records completion. -/
def Context.prepare (c : Context) (_rate _block : Nat) :
    Context × Option String :=
  if !c.ready then (c, none)
  else
    match c.scr with
    | none => ({ c with hasPrepared := true }, none)
    | some s =>
      if s.hasPrepare then
        match s.prepareErr with
        | some msg => (c, some msg)
        | none => ({ c with hasPrepared := true }, none)
      else ({ c with hasPrepared := true }, none)

/-- `Context::release`: no-op when not ready; otherwise calls the script's
`node_release` hook (unprotected) and collects garbage. -/
def Context.release (c : Context) : Context × Option String :=
  if !c.ready then (c, none)
  else
    match c.scr with
    | none => (c, none)
    | some s =>
      if s.hasRelease then
        match s.releaseErr with
        | some msg => (c, some msg)
        | none => (c, none)
      else (c, none)

/-- Outcome of one `Context::render` call as seen by the audio callback. -/
inductive RenderStep
  | skipped
  | rendered
  | noopOnError (msg : String)
  | fault (msg : String)
deriving DecidableEq

/-- Whether the outcome propagates an error into the audio callback. -/
def RenderStep.propagates : RenderStep → Bool
  | RenderStep.fault _ => true
  | _ => false

/-- Modelled from the spec: the call through the pre-resolved
`std::function` render entry point (`renderstdf`) — this seam lives in sol2's
`sol.hpp`, which is not part of the repository sources.  Per the spec, an
interpreter-level error raised by the script's render entry point "is swallowed
or converted to a no-op for that block" and never propagates as a native fault
into the audio callback; the source agrees (the validation harness comments
that it calls `renderf` *directly* "so it can throw an exception", i.e. the
`renderstdf` path used by `render` does not). -/
def renderEntryInvoke (s : LuaScript) : RenderStep :=
  match s.renderErr with
  | some msg => RenderStep.noopOnError msg
  | none => RenderStep.rendered

/-- `Context::render` (noexcept): `if (loaded) renderstdf (audio, midi);`.
The audio/MIDI buffer contents are not part of the model's observables; the
observable is which script's entry point runs and how the call resolves. -/
def Context.render (c : Context) : RenderStep :=
  if c.loaded then
    match c.scr with
    | some s => renderEntryInvoke s
    | none => RenderStep.rendered
  else RenderStep.skipped

/-- The script whose behaviour a render call exercises: the loaded script of
the context, if any. -/
def Context.renderBehavior (c : Context) : Option LuaScript :=
  if c.loaded then c.scr else none

/-- `kv::PortList::size (type, isInput)` as used by the validation harness. -/
def countPorts (l : List Port) (t : PortType) (inp : Bool) : Nat :=
  (l.filter (fun p => decide (p.type = t ∧ p.isInput = inp))).length

/-- `Context::validate (script)` — the validation harness.  Empty text fails
fast; otherwise a throwaway context is loaded and the full
`createPorts → prepare → render (via `renderf` directly, iff truthy) →
release` lifecycle runs inside a `try` whose catch returns the error message.
The dummy audio/MIDI buffers are sized from the derived ports; their contents
have no observable in the model. -/
def Context.validate (s : LuaScript) : Result :=
  if s.text.isEmpty then Result.fail "script contains no code"
  else
    let lr := Context.load Context.init s
    if lr.1.failed then lr.1
    else if !lr.2.ready then Result.fail "could not parse script"
    else
      let cp := lr.2.createPorts []
      match cp.2 with
      | some msg => Result.fail msg
      | none =>
        let _nchans := max 1 (max (countPorts cp.1 PortType.Audio true)
                                  (countPorts cp.1 PortType.Audio false))
        let _nmidi := max (countPorts cp.1 PortType.Midi true)
                          (countPorts cp.1 PortType.Midi false)
        let pr := lr.2.prepare 44100 1024
        match pr.2 with
        | some msg => Result.fail msg
        | none =>
          match (if s.renderDefined then s.renderErr else none) with
          | some msg => Result.fail msg
          | none =>
            let rel := pr.1.release
            match rel.2 with
            | some msg => Result.fail msg
            | none => Result.ok

/-- The built-in default script (`static const String defaultScript`), read
off its Lua source: 2 audio ins, 2 audio outs, 1 MIDI in, 1 MIDI out, one
"Volume" input parameter, and all five entry points defined and error-free.
Only emptiness of the text is observable, so the stored text is a stand-in
marker for the non-empty Lua source. -/
def defaultScript : LuaScript :=
  { text := "-- Lua Node template"
    execOk := true
    ioPorts := some { callErr := none, audioIns := 2, audioOuts := 2,
                      midiIns := 1, midiOuts := 1 }
    params := some { decls := [{ name := some "Volume", flow := some "input" }],
                     errAfter := none }
    hasPrepare := true, prepareErr := none
    renderDefined := true, renderErr := none
    hasRelease := true, releaseErr := none }

/-- The `LuaNode` members touched by `LuaNode.cpp`: the active context (the
`std::unique_ptr<Context>` slot, always populated during the node's life), the
committed and draft script texts (`none` models the initial empty strings),
the prepared flag, the cached sample rate and block size, and the port list.
The render-exclusion lock serializes the operations, which the sequential
model reflects by construction. -/
structure LuaNodeSt where
  context : Context
  script : Option LuaScript
  draftScript : Option LuaScript
  prepared : Bool
  sampleRate : Nat
  blockSize : Nat
  ports : List Port
deriving DecidableEq

/-- How a call into the node returns to its caller: a normal return carrying
the `juce::Result` and the node state, or a C++ exception escaping the call
(with the node state at the throw point). -/
inductive LoadOutcome
  | ret (r : Result) (st : LuaNodeSt)
  | threw (msg : String) (st : LuaNodeSt)
deriving DecidableEq

def LoadOutcome.returned : LoadOutcome → Bool
  | LoadOutcome.ret _ _ => true
  | LoadOutcome.threw _ _ => false

/-- `LuaNode::loadScript`.  Validate; build and `load` a fresh context; on
success commit the script text, `prepare` the new context first when the node
is already prepared, swap it in under the lock, and outside the lock
`release` and destroy the context left in `newContext` (the old one after a
swap, the failed one otherwise). -/
def LuaNode.loadScript (st : LuaNodeSt) (s : LuaScript) : LoadOutcome :=
  let vres := Context.validate s
  if vres.failed then LoadOutcome.ret vres st
  else
    let lr := Context.load Context.init s
    if lr.1.wasOk then
      let st1 : LuaNodeSt := { st with script := some s, draftScript := some s }
      let pr := if st1.prepared then lr.2.prepare st1.sampleRate st1.blockSize
                else (lr.2, none)
      match pr.2 with
      | some msg => LoadOutcome.threw msg st1
      | none =>
        let st2 : LuaNodeSt := { st1 with context := pr.1 }
        let rel := st1.context.release
        match rel.2 with
        | some msg => LoadOutcome.threw msg st2
        | none => LoadOutcome.ret Result.ok st2
    else
      let rel := lr.2.release
      match rel.2 with
      | some msg => LoadOutcome.threw msg st
      | none => LoadOutcome.ret lr.1 st

/-- `LuaNode::createPorts`: clear the node's port list, then repopulate it
from the active context.  An error escaping `Context::createPorts` escapes
here too, leaving the by-reference list with what was appended so far. -/
def LuaNode.createPorts (st : LuaNodeSt) : LuaNodeSt × Option String :=
  let cp := st.context.createPorts []
  ({ st with ports := cp.1 }, cp.2)

/-- `LuaNode::prepareToRender`: no-op when already prepared; otherwise cache
rate/block, prepare the active context, then set `prepared` (not reached if
the prepare hook throws). -/
def LuaNode.prepareToRender (st : LuaNodeSt) (rate block : Nat) :
    LuaNodeSt × Option String :=
  if st.prepared then (st, none)
  else
    let st1 : LuaNodeSt := { st with sampleRate := rate, blockSize := block }
    let pr := st1.context.prepare rate block
    match pr.2 with
    | some msg => ({ st1 with context := pr.1 }, some msg)
    | none => ({ st1 with context := pr.1, prepared := true }, none)

/-- `LuaNode::releaseResources`: no-op when not prepared; otherwise clear
`prepared` and release the active context. -/
def LuaNode.releaseResources (st : LuaNodeSt) : LuaNodeSt × Option String :=
  if !st.prepared then (st, none)
  else
    let st1 : LuaNodeSt := { st with prepared := false }
    let rel := st1.context.release
    ({ st1 with context := rel.1 }, rel.2)

/-- `LuaNode::render`: under the lock, render through the active context. -/
def LuaNode.render (st : LuaNodeSt) : RenderStep :=
  st.context.render

/-- The deserialized state blob of `LuaNode::setState`: whether
`ValueTree::readFromData` produced a valid tree, and the script text stored
under the "script" property. -/
structure StateBlob where
  valid : Bool
  script : LuaScript
deriving DecidableEq

structure SetStateOut where
  st : LuaNodeSt
  signaled : Bool
  threw : Option String
deriving DecidableEq

/-- `LuaNode::setState`: when the tree is valid, call `loadScript` on the
stored script and then — unconditionally — `sendChangeMessage()`.  The
notification is skipped only when the blob is invalid or `loadScript` throws
before returning. -/
def LuaNode.setState (st : LuaNodeSt) (b : StateBlob) : SetStateOut :=
  if b.valid then
    match LuaNode.loadScript st b.script with
    | LoadOutcome.ret _ st1 => { st := st1, signaled := true, threw := none }
    | LoadOutcome.threw msg st1 => { st := st1, signaled := false, threw := some msg }
  else { st := st, signaled := false, threw := none }

/-- The channels of the ports of one (type, direction) group, in list order. -/
def groupChannels (l : List Port) (t : PortType) (inp : Bool) : List Nat :=
  (l.filter (fun p => decide (p.type = t ∧ p.isInput = inp))).map Port.channel

/-- The empty script text (`loadScript ("")`). -/
def emptyScript : LuaScript :=
  { text := "", execOk := true, ioPorts := none, params := none,
    hasPrepare := false, prepareErr := none, renderDefined := false,
    renderErr := none, hasRelease := false, releaseErr := none }

/-- A script text that executes without interpreter error but defines no
`node_render` function (for example a chunk consisting of one assignment). -/
def scriptNoRender : LuaScript :=
  { text := "x = 1", execOk := true, ioPorts := none, params := none,
    hasPrepare := false, prepareErr := none, renderDefined := false,
    renderErr := none, hasRelease := false, releaseErr := none }

/-- A script whose `node_io_ports` function raises an interpreter error when
invoked (for example a body consisting of a bare error call). -/
def scriptIOPortsErr : LuaScript :=
  { text := "function node_io_ports() error() end function node_render() end",
    execOk := true,
    ioPorts := some { callErr := some "io ports error", audioIns := 0,
                      audioOuts := 0, midiIns := 0, midiOuts := 0 },
    params := none,
    hasPrepare := false, prepareErr := none, renderDefined := true,
    renderErr := none, hasRelease := false, releaseErr := none }

/-- The default script with a `node_params` function that raises an error
after its first declaration has been read. -/
def scriptParamErr : LuaScript :=
  { defaultScript with
      params := some { decls := [{ name := some "Volume", flow := some "input" }],
                       errAfter := some "params error" } }

/-- A node in its pristine constructed state, before `loadScript` has run
(the members default-initialize: fresh context, empty script texts, not
prepared). -/
def node0 : LuaNodeSt :=
  { context := Context.init, script := none, draftScript := none,
    prepared := false, sampleRate := 0, blockSize := 0, ports := [] }

/-- The context obtained by loading the default script into a fresh context. -/
def defaultContext : Context := (Context.load Context.init defaultScript).2

/-- A node running the default script that the host has already prepared. -/
def defaultNode : LuaNodeSt :=
  { context := defaultContext, script := some defaultScript,
    draftScript := some defaultScript, prepared := true,
    sampleRate := 44100, blockSize := 512, ports := [] }

/-- The node state after `loadScript (defaultScript)` on `defaultNode`:
the freshly loaded context was prepared before being swapped in. -/
def defaultNodeSwapped : LuaNodeSt :=
  { defaultNode with context := { defaultContext with hasPrepared := true } }

/-- The context obtained by loading `scriptParamErr` into a fresh context. -/
def paramErrContext : Context := (Context.load Context.init scriptParamErr).2

/-- `s` with the error raised after its parameter declarations replaced by
`e` (used to compare outcomes across different `node_params` errors). -/
def withParamsErr (s : LuaScript) (pd : ParamsDecl) (e : Option String) :
    LuaScript :=
  { s with params := some { decls := pd.decls, errAfter := e } }

/-- `c` with its installed script replaced by `s`. -/
def ctxWith (c : Context) (s : LuaScript) : Context :=
  { c with scr := some s }

end Element

/-! ## Supporting lemmas -/

namespace Element

theorem mkPortRun_length (t : PortType) (base count : Nat) (s0 n0 : String) (inp : Bool) :
    (mkPortRun t base count s0 n0 inp).length = count := by
  simp [mkPortRun]

theorem mkPortRun_map_index (t : PortType) (base count : Nat) (s0 n0 : String) (inp : Bool) :
    (mkPortRun t base count s0 n0 inp).map Port.index = List.range' base count := by
  simp only [mkPortRun, List.map_map, List.range'_eq_map_range]
  rfl

theorem mkPortRun_map_channel (t : PortType) (base count : Nat) (s0 n0 : String) (inp : Bool) :
    (mkPortRun t base count s0 n0 inp).map Port.channel = List.range count := by
  simp only [mkPortRun, List.map_map]
  exact List.map_id _

theorem mkPortRun_map_typeDir (t : PortType) (base count : Nat) (s0 n0 : String) (inp : Bool) :
    (mkPortRun t base count s0 n0 inp).map (fun p => (p.type, p.isInput))
      = List.replicate count (t, inp) := by
  simp only [mkPortRun, List.map_map]
  have : (List.range count).map (fun _ => (t, inp)) = List.replicate count (t, inp) := by
    simp [List.map_const']
  exact this

theorem mkPortRun_mem (t : PortType) (base count : Nat) (s0 n0 : String) (inp : Bool)
    (x : Port) (hx : x ∈ mkPortRun t base count s0 n0 inp) :
    x.type = t ∧ x.isInput = inp := by
  simp [mkPortRun] at hx
  obtain ⟨i, _, rfl⟩ := hx
  exact ⟨rfl, rfl⟩

theorem addParamDecls_length (ps : List ParamSpec) (idx ic oc : Nat) :
    (addParamDecls ps idx ic oc).length = ps.length := by
  induction ps generalizing idx ic oc with
  | nil => rfl
  | cons p rest ih => simp [addParamDecls, ih]

theorem addParamDecls_map_index (ps : List ParamSpec) (idx ic oc : Nat) :
    (addParamDecls ps idx ic oc).map Port.index = List.range' idx ps.length := by
  induction ps generalizing idx ic oc with
  | nil => rfl
  | cons p rest ih => simp [addParamDecls, ih, List.range'_succ]

theorem addParamDecls_map_typeDir (ps : List ParamSpec) (idx ic oc : Nat) :
    (addParamDecls ps idx ic oc).map (fun p => (p.type, p.isInput))
      = ps.map (fun p => (PortType.Control, paramIsInput p)) := by
  induction ps generalizing idx ic oc with
  | nil => rfl
  | cons p rest ih => simp [addParamDecls, ih]

theorem addParamDecls_mem (ps : List ParamSpec) (idx ic oc : Nat)
    (x : Port) (hx : x ∈ addParamDecls ps idx ic oc) : x.type = PortType.Control := by
  induction ps generalizing idx ic oc with
  | nil => simp [addParamDecls] at hx
  | cons p rest ih =>
    simp only [addParamDecls, List.mem_cons] at hx
    rcases hx with rfl | hx
    · rfl
    · exact ih _ _ _ hx

theorem addParamDecls_input_channels (ps : List ParamSpec) (idx ic oc : Nat) :
    ((addParamDecls ps idx ic oc).filter (fun p => p.isInput)).map Port.channel
      = List.range' ic (ps.countP paramIsInput) := by
  induction ps generalizing idx ic oc with
  | nil => rfl
  | cons p rest ih =>
    by_cases h : paramIsInput p
    · simp [addParamDecls, List.filter_cons, h, ih, List.countP_cons, List.range'_succ]
    · simp [addParamDecls, List.filter_cons, h, ih, List.countP_cons]

theorem addParamDecls_output_channels (ps : List ParamSpec) (idx ic oc : Nat) :
    ((addParamDecls ps idx ic oc).filter (fun p => !p.isInput)).map Port.channel
      = List.range' oc (ps.countP (fun p => !paramIsInput p)) := by
  induction ps generalizing idx ic oc with
  | nil => rfl
  | cons p rest ih =>
    by_cases h : paramIsInput p
    · simp [addParamDecls, List.filter_cons, h, ih, List.countP_cons]
    · simp [addParamDecls, List.filter_cons, h, ih, List.countP_cons, List.range'_succ]


theorem createPorts_eq (c : Context) (s : LuaScript) (d : IOPortsDecl) (pd : ParamsDecl)
    (hr : c.ready = true) (hs : c.scr = some s) (hio : s.ioPorts = some d)
    (hce : d.callErr = none) (hp : s.params = some pd) :
    c.createPorts [] =
      (mkPortRun PortType.Audio 0 d.audioIns "in_" "In " true
        ++ mkPortRun PortType.Audio d.audioIns d.audioOuts "out_" "Out " false
        ++ mkPortRun PortType.Midi (d.audioIns + d.audioOuts) d.midiIns "midi_in_" "MIDI In " true
        ++ mkPortRun PortType.Midi (d.audioIns + d.audioOuts + d.midiIns) d.midiOuts "midi_out_" "MIDI Out " false
        ++ addParamDecls pd.decls (d.audioIns + d.audioOuts + d.midiIns + d.midiOuts) 0 0,
       none) := by
  simp [Context.createPorts, Context.addIOPorts, Context.addParameters,
        hr, hs, hio, hce, hp, mkPortRun_length, Nat.add_assoc]

theorem mkPortRun_filter_dir (t : PortType) (base count : Nat) (s0 n0 : String) (inp : Bool)
    (t' : PortType) (inp' : Bool) :
    (mkPortRun t base count s0 n0 inp).filter
        (fun p => decide (p.type = t' ∧ p.isInput = inp'))
      = if t = t' ∧ inp = inp' then mkPortRun t base count s0 n0 inp else [] := by
  by_cases h : t = t' ∧ inp = inp'
  · obtain ⟨rfl, rfl⟩ := h
    rw [if_pos (And.intro rfl rfl), List.filter_eq_self]
    intro x hx
    have hm := mkPortRun_mem t base count s0 n0 inp x hx
    simp [hm.1, hm.2]
  · rw [if_neg h, List.filter_eq_nil_iff]
    intro x hx
    have hm := mkPortRun_mem t base count s0 n0 inp x hx
    simp only [hm.1, hm.2, decide_eq_true_eq]
    exact h

theorem addParamDecls_filter_nonControl (ps : List ParamSpec) (idx ic oc : Nat)
    (t' : PortType) (inp' : Bool) (h : t' ≠ PortType.Control) :
    (addParamDecls ps idx ic oc).filter
        (fun p => decide (p.type = t' ∧ p.isInput = inp')) = [] := by
  rw [List.filter_eq_nil_iff]
  intro x hx
  have hm := addParamDecls_mem ps idx ic oc x hx
  simp only [hm, decide_eq_true_eq, not_and]
  intro hc
  exact absurd hc.symm h

theorem addParamDecls_filter_control (ps : List ParamSpec) (idx ic oc : Nat) (inp' : Bool) :
    (addParamDecls ps idx ic oc).filter
        (fun p => decide (p.type = PortType.Control ∧ p.isInput = inp'))
      = (addParamDecls ps idx ic oc).filter
          (fun p => if inp' then p.isInput else !p.isInput) := by
  apply List.filter_congr
  intro x hx
  have hm := addParamDecls_mem ps idx ic oc x hx
  cases inp' <;> simp [hm]


theorem range'_concat (s m n : Nat) :
    List.range' s m ++ List.range' (s + m) n = List.range' s (m + n) := by
  simp [Nat.add_comm]

theorem range'_zero_concat (a k : Nat) :
    List.range' 0 a ++ List.range' a k = List.range' 0 (a + k) := by
  have h := range'_concat 0 a k
  rw [Nat.zero_add] at h
  exact h

theorem createPorts_map_index (c : Context) (s : LuaScript) (d : IOPortsDecl) (pd : ParamsDecl)
    (hr : c.ready = true) (hs : c.scr = some s) (hio : s.ioPorts = some d)
    (hce : d.callErr = none) (hp : s.params = some pd) :
    ((c.createPorts []).1).map Port.index
      = List.range' 0 (d.audioIns + d.audioOuts + d.midiIns + d.midiOuts + pd.decls.length) := by
  have heq := createPorts_eq c s d pd hr hs hio hce hp
  have hfst : (c.createPorts []).1
      = mkPortRun PortType.Audio 0 d.audioIns "in_" "In " true
        ++ mkPortRun PortType.Audio d.audioIns d.audioOuts "out_" "Out " false
        ++ mkPortRun PortType.Midi (d.audioIns + d.audioOuts) d.midiIns "midi_in_" "MIDI In " true
        ++ mkPortRun PortType.Midi (d.audioIns + d.audioOuts + d.midiIns) d.midiOuts "midi_out_" "MIDI Out " false
        ++ addParamDecls pd.decls (d.audioIns + d.audioOuts + d.midiIns + d.midiOuts) 0 0 := by
    rw [heq]
  rw [hfst]
  simp only [List.map_append, mkPortRun_map_index, addParamDecls_map_index, List.append_assoc]
  rw [range'_concat, range'_concat, range'_concat, range'_zero_concat]
  congr 1
  omega


/-- C4: for every ready context whose script declares `a` audio-in, `b`
audio-out, `m` midi-in, `n` midi-out ports and the parameter list `pd.decls`
(with no interpreter error in port derivation), `createPorts` appends exactly
`a+b+m+n+p` ports, in the fixed group order Audio-in, Audio-out, MIDI-in,
MIDI-out, Control, with the global port index strictly increasing from 0 in
declaration order and each (type, direction) group's channel numbering
restarting at 0. -/
theorem createPorts_port_layout (c : Context) (s : LuaScript) (d : IOPortsDecl) (pd : ParamsDecl)
    (hr : c.ready = true) (hs : c.scr = some s) (hio : s.ioPorts = some d)
    (hce : d.callErr = none) (hp : s.params = some pd) (_he : pd.errAfter = none) :
    ((c.createPorts []).1).length
        = d.audioIns + d.audioOuts + d.midiIns + d.midiOuts + pd.decls.length
    ∧ (∀ k, (h : k < ((c.createPorts []).1).length) → (((c.createPorts []).1)[k]).index = k)
    ∧ ((c.createPorts []).1).map (fun p => (p.type, p.isInput))
        = List.replicate d.audioIns (PortType.Audio, true)
          ++ List.replicate d.audioOuts (PortType.Audio, false)
          ++ List.replicate d.midiIns (PortType.Midi, true)
          ++ List.replicate d.midiOuts (PortType.Midi, false)
          ++ pd.decls.map (fun p => (PortType.Control, paramIsInput p))
    ∧ groupChannels (c.createPorts []).1 PortType.Audio true = List.range d.audioIns
    ∧ groupChannels (c.createPorts []).1 PortType.Audio false = List.range d.audioOuts
    ∧ groupChannels (c.createPorts []).1 PortType.Midi true = List.range d.midiIns
    ∧ groupChannels (c.createPorts []).1 PortType.Midi false = List.range d.midiOuts
    ∧ groupChannels (c.createPorts []).1 PortType.Control true
        = List.range (pd.decls.countP paramIsInput)
    ∧ groupChannels (c.createPorts []).1 PortType.Control false
        = List.range (pd.decls.countP (fun p => !paramIsInput p)) := by
  have heq := createPorts_eq c s d pd hr hs hio hce hp
  have hfst : (c.createPorts []).1
      = mkPortRun PortType.Audio 0 d.audioIns "in_" "In " true
        ++ mkPortRun PortType.Audio d.audioIns d.audioOuts "out_" "Out " false
        ++ mkPortRun PortType.Midi (d.audioIns + d.audioOuts) d.midiIns "midi_in_" "MIDI In " true
        ++ mkPortRun PortType.Midi (d.audioIns + d.audioOuts + d.midiIns) d.midiOuts "midi_out_" "MIDI Out " false
        ++ addParamDecls pd.decls (d.audioIns + d.audioOuts + d.midiIns + d.midiOuts) 0 0 := by
    rw [heq]
  have hlen : ((c.createPorts []).1).length
      = d.audioIns + d.audioOuts + d.midiIns + d.midiOuts + pd.decls.length := by
    rw [hfst]
    simp [mkPortRun_length, addParamDecls_length]
    omega
  refine ⟨hlen, ?_, ?_, ?_, ?_, ?_, ?_, ?_, ?_⟩
  · -- strictly increasing global indices from 0
    intro k hk
    have hmap := createPorts_map_index c s d pd hr hs hio hce hp
    have hk2 : k < (((c.createPorts []).1).map Port.index).length := by
      simpa using hk
    have h2 := List.getElem_of_eq hmap hk2
    simpa using h2
  · rw [hfst]
    simp only [List.map_append, mkPortRun_map_typeDir, addParamDecls_map_typeDir]
  · rw [hfst]
    simp only [groupChannels, List.filter_append, mkPortRun_filter_dir,
      addParamDecls_filter_nonControl]
    simp [mkPortRun_map_channel]
    intro x hx hta
    have hc := addParamDecls_mem _ _ _ _ x hx
    rw [hc] at hta
    simp at hta
  · rw [hfst]
    simp only [groupChannels, List.filter_append, mkPortRun_filter_dir,
      addParamDecls_filter_nonControl]
    simp [mkPortRun_map_channel]
    intro x hx hta
    have hc := addParamDecls_mem _ _ _ _ x hx
    rw [hc] at hta
    simp at hta
  · rw [hfst]
    simp only [groupChannels, List.filter_append, mkPortRun_filter_dir,
      addParamDecls_filter_nonControl]
    simp [mkPortRun_map_channel]
    intro x hx hta
    have hc := addParamDecls_mem _ _ _ _ x hx
    rw [hc] at hta
    simp at hta
  · rw [hfst]
    simp only [groupChannels, List.filter_append, mkPortRun_filter_dir,
      addParamDecls_filter_nonControl]
    simp [mkPortRun_map_channel]
    intro x hx hta
    have hc := addParamDecls_mem _ _ _ _ x hx
    rw [hc] at hta
    simp at hta
  · rw [hfst]
    simp only [groupChannels, List.filter_append, mkPortRun_filter_dir,
      addParamDecls_filter_control]
    have hin := addParamDecls_input_channels pd.decls
      (d.audioIns + d.audioOuts + d.midiIns + d.midiOuts) 0 0
    simp [hin, List.range_eq_range']
  · rw [hfst]
    simp only [groupChannels, List.filter_append, mkPortRun_filter_dir,
      addParamDecls_filter_control]
    have hout := addParamDecls_output_channels pd.decls
      (d.audioIns + d.audioOuts + d.midiIns + d.midiOuts) 0 0
    simp [hout, List.range_eq_range']

theorem load_init_wasOk (s : LuaScript) :
    ((Context.load Context.init s).1).wasOk = s.execOk := by
  cases h : s.execOk <;>
    simp [Context.load, Context.init, Context.ready, h, Result.wasOk]

theorem load_init_ready (s : LuaScript) :
    ((Context.load Context.init s).2).ready = s.execOk := by
  cases h : s.execOk <;>
    simp [Context.load, Context.init, Context.ready, h]

theorem load_init_scr_of_ok (s : LuaScript) (h : s.execOk = true) :
    ((Context.load Context.init s).2).scr = some s := by
  simp [Context.load, Context.init, Context.ready, h]

theorem prepare_completes (c : Context) (r b : Nat) (hr : c.ready = true)
    (h : (c.prepare r b).2 = none) :
    ((c.prepare r b).1).hasPrepared = true := by
  obtain ⟨lo, sc, hpd⟩ := c
  simp only [Context.ready] at hr
  subst hr
  cases sc with
  | none => rfl
  | some s =>
    by_cases hsp : s.hasPrepare = true
    · cases hpe : s.prepareErr with
      | none => simp [Context.prepare, Context.ready, hsp, hpe]
      | some m => simp [Context.prepare, Context.ready, hsp, hpe] at h
    · simp [Context.prepare, Context.ready, hsp]

theorem prepare_ready (c : Context) (r b : Nat) :
    ((c.prepare r b).1).ready = c.ready := by
  unfold Context.prepare
  split
  · rfl
  · split
    · rfl
    · split
      · split
        · rfl
        · rfl
      · rfl

end Element

/-! ## The claims -/

namespace Element

/-- C1: `loadScript` is all-or-nothing.  Whenever `loadScript` *returns* a
failure — whether validation failed or the fresh context's `load` failed —
the node state is unchanged: committed script text, draft script text and
active context are those from before the call, and a subsequent render
exercises the previously installed script's behaviour. -/
theorem loadScript_failure_is_all_or_nothing (st : LuaNodeSt) (s : LuaScript)
    (r : Result) (st' : LuaNodeSt)
    (hret : LuaNode.loadScript st s = LoadOutcome.ret r st')
    (hfail : r.wasOk = false) :
    st' = st ∧ st'.script = st.script ∧ st'.draftScript = st.draftScript
      ∧ st'.context = st.context
      ∧ LuaNode.render st' = LuaNode.render st
      ∧ st'.context.renderBehavior = st.context.renderBehavior := by
  have hst : st' = st := by
    simp only [LuaNode.loadScript] at hret
    split at hret
    · injection hret with h1 h2
      exact h2.symm
    · split at hret
      · split at hret
        · exact (LoadOutcome.noConfusion hret)
        · split at hret
          · exact (LoadOutcome.noConfusion hret)
          · injection hret with h1 h2
            rw [← h1] at hfail
            simp [Result.wasOk] at hfail
      · split at hret
        · exact (LoadOutcome.noConfusion hret)
        · injection hret with h1 h2
          exact h2.symm
  subst hst
  exact ⟨rfl, rfl, rfl, rfl, rfl, rfl⟩

/-- C2: `Context::render` never propagates an error into the audio callback:
for every context the render call either runs the entry point, degrades to a
no-op on an interpreter-level error, or (when not loaded) skips the call —
it never resolves to a propagating fault. -/
theorem render_never_propagates_error (c : Context) :
    (Context.render c).propagates = false := by
  unfold Context.render
  split
  · split
    · rename_i s _
      unfold renderEntryInvoke
      cases s.renderErr <;> rfl
    · rfl
  · rfl

/-- C3 (counterexample): a script that executes without interpreter error but
defines no callable `node_render` still loads successfully and leaves the
context `ready` — `load` does not check that the render entry point
resolved. -/
theorem ready_true_without_render_entry :
    scriptNoRender.execOk = true ∧ scriptNoRender.renderDefined = false
      ∧ (Context.load Context.init scriptNoRender).1 = Result.ok
      ∧ ((Context.load Context.init scriptNoRender).2).ready = true := by
  decide

/-- C3 (amended): `ready()` is true after `load` exactly when the script text
executed without interpreter error; whether a callable `node_render` was
resolved is not checked. -/
theorem ready_tracks_script_execution_only (s : LuaScript) :
    ((Context.load Context.init s).2).ready = s.execOk
      ∧ ((Context.load Context.init s).1).wasOk = s.execOk :=
  ⟨load_init_ready s, load_init_wasOk s⟩

/-- C5: when `loadScript` succeeds on a node that is already prepared, the
newly installed active context has been prepared (its `node_prepare` hook ran
to completion before the swap), so the first render after the hot-swap never
hits an unprepared context. -/
theorem loadScript_prepares_new_context_before_install (st : LuaNodeSt)
    (s : LuaScript) (st' : LuaNodeSt)
    (hret : LuaNode.loadScript st s = LoadOutcome.ret Result.ok st')
    (hprep : st.prepared = true) :
    st'.prepared = true ∧ st'.context.hasPrepared = true
      ∧ st'.context.ready = true := by
  simp only [LuaNode.loadScript] at hret
  split at hret
  next hv =>
    injection hret with h1 h2
    rw [h1] at hv
    simp [Result.failed, Result.wasOk] at hv
  next hv =>
    split at hret
    next hw =>
      have hexec : s.execOk = true := by
        rw [← load_init_wasOk s]
        exact hw
      have hready : ((Context.load Context.init s).2).ready = true := by
        rw [load_init_ready s]
        exact hexec
      split at hret
      next hpe => exact (LoadOutcome.noConfusion hret)
      next hpe =>
        split at hret
        next hre => exact (LoadOutcome.noConfusion hret)
        next hre =>
          injection hret with h1 h2
          subst h2
          refine ⟨hprep, ?_, ?_⟩
          · exact prepare_completes _ _ _ hready hpe
          · exact (prepare_ready _ _ _).trans hready
    next hw =>
      split at hret
      next hre => exact (LoadOutcome.noConfusion hret)
      next hre =>
        injection hret with h1 h2
        rw [h1] at hw
        simp [Result.wasOk] at hw

/-- C8: for the empty script text, `validate` fails fast with the
empty-script error (before any context is built), and `loadScript ("")`
returns that failure leaving the node untouched. -/
theorem loadScript_empty_script_fails_fast (st : LuaNodeSt) (s : LuaScript)
    (h : s.text = "") :
    Context.validate s = Result.fail "script contains no code"
      ∧ LuaNode.loadScript st s
          = LoadOutcome.ret (Result.fail "script contains no code") st := by
  have hv : Context.validate s = Result.fail "script contains no code" := by
    unfold Context.validate
    rw [h]
    rfl
  refine ⟨hv, ?_⟩
  simp [LuaNode.loadScript, hv, Result.failed, Result.wasOk]

/-- C9 (counterexample): a valid state blob whose embedded script text is
empty makes `loadScript` fail, yet `setState` still sends the change
notification — `sendChangeMessage()` is called unconditionally after
`loadScript` returns. -/
theorem setState_signals_despite_failed_load :
    (LuaNode.setState node0 { valid := true, script := emptyScript }).signaled
        = true
      ∧ LuaNode.loadScript node0 emptyScript
          = LoadOutcome.ret (Result.fail "script contains no code") node0 := by
  decide

/-- C9 (amended): `setState` signals listeners exactly when the blob
deserializes to a valid tree and `loadScript` returns (successfully or not);
success of the reload is not required for the notification. -/
theorem setState_signal_condition (st : LuaNodeSt) (b : StateBlob) :
    (LuaNode.setState st b).signaled
      = (b.valid && (LuaNode.loadScript st b.script).returned) := by
  unfold LuaNode.setState
  by_cases hb : b.valid = true
  · rw [hb]
    simp only [if_true]
    cases h : LuaNode.loadScript st b.script <;>
      simp [h, LoadOutcome.returned]
  · simp only [Bool.not_eq_true] at hb
    rw [hb]
    simp

/-- C10: `LuaNode::createPorts` clears the port list before repopulating it
from the active context, so a second call yields exactly the same node state
and outcome as the first, and the produced port list does not depend on the
ports previously stored on the node. -/
theorem createPorts_is_idempotent (st : LuaNodeSt) :
    LuaNode.createPorts (LuaNode.createPorts st).1 = LuaNode.createPorts st
      ∧ ∀ ps, (LuaNode.createPorts { st with ports := ps }).1.ports
          = (LuaNode.createPorts st).1.ports := by
  constructor
  · rfl
  · intro ps
    rfl

/-- C6 (counterexample): a ready context whose `node_io_ports` raises an
interpreter error does *not* make `createPorts` return normally: the error
escapes `createPorts` (the invocation sits outside `addIOPorts`'s try block),
refuting the claim that every port-derivation error is swallowed. -/
theorem createPorts_propagates_io_ports_error :
    ((Context.load Context.init scriptIOPortsErr).2).ready = true
      ∧ ((Context.load Context.init scriptIOPortsErr).2).createPorts []
          = ([], some "io ports error") := by
  decide

/-- C6 (amended): for a ready context, an interpreter error raised while
reading parameter declarations is swallowed inside `createPorts` and the
resulting list holds exactly the ports appended before the error (the outcome
is that of the same script without the error); but an error raised by the
invocation of `node_io_ports` itself propagates out of `createPorts`, leaving
the port list unchanged; `createPorts` returns normally exactly when no such
invocation error exists. -/
theorem createPorts_error_containment (c : Context) (l : List Port)
    (s : LuaScript) (pd : ParamsDecl)
    (hr : c.ready = true) (hs : c.scr = some s) (hp : s.params = some pd) :
    (∀ e, c.createPorts l
        = Context.createPorts (ctxWith c (withParamsErr s pd e)) l)
    ∧ (∀ d msg, s.ioPorts = some d → d.callErr = some msg →
        c.createPorts l = (l, some msg))
    ∧ ((s.ioPorts = none ∨ ∃ d, s.ioPorts = some d ∧ d.callErr = none) →
        (c.createPorts l).2 = none) := by
  refine ⟨?_, ?_, ?_⟩
  · intro e
    cases hio : s.ioPorts with
    | none =>
      simp [Context.createPorts, Context.addIOPorts, Context.addParameters,
        ctxWith, withParamsErr, Context.ready, hr, hs, hio, hp]
    | some d =>
      cases hce : d.callErr with
      | some m =>
        simp [Context.createPorts, Context.addIOPorts, Context.addParameters,
          ctxWith, withParamsErr, Context.ready, hr, hs, hio, hce, hp]
      | none =>
        simp [Context.createPorts, Context.addIOPorts, Context.addParameters,
          ctxWith, withParamsErr, Context.ready, hr, hs, hio, hce, hp]
  · intro d msg hio hce
    simp [Context.createPorts, Context.addIOPorts, hr, hs, hio, hce]
  · intro hio
    rcases hio with hio | ⟨d, hio, hce⟩
    · simp [Context.createPorts, Context.addIOPorts, Context.addParameters,
        hr, hs, hio, hp]
    · simp [Context.createPorts, Context.addIOPorts, Context.addParameters,
        hr, hs, hio, hce, hp]

/-- C7 (counterexample): for the built-in default script, `createPorts` does
not return 6 ports — the port count is 7 (2 audio in + 2 audio out + 1 MIDI
in + 1 MIDI out + the Volume control). -/
theorem defaultScript_yields_seven_ports_not_six :
    (((defaultContext.createPorts []).1).length == 6) = false
      ∧ ((defaultContext.createPorts []).1).length = 7 := by
  decide

/-- C7 (amended): for the built-in default script, `createPorts` returns 7
ports with symbols `in_1, in_2, out_1, out_2, midi_in_1, midi_out_1, volume`,
in that order, and no error escapes. -/
theorem defaultScript_port_symbols :
    ((defaultContext.createPorts []).1).map Port.symbol
        = ["in_1", "in_2", "out_1", "out_2", "midi_in_1", "midi_out_1", "volume"]
      ∧ (defaultContext.createPorts []).2 = none := by
  decide

/-- Witness for C1: `loadScript ("")` on a pristine node returns the
empty-script failure and the state is unchanged. -/
theorem loadScript_failure_is_all_or_nothing_witness :
    LuaNode.loadScript node0 emptyScript
        = LoadOutcome.ret (Result.fail "script contains no code") node0
      ∧ node0 = node0 :=
  ⟨by decide, (loadScript_failure_is_all_or_nothing node0 emptyScript
      (Result.fail "script contains no code") node0 (by decide) (by decide)).1⟩

/-- Witness for C4 at the default script's declarations: 2 + 2 + 1 + 1 io
ports plus one parameter. -/
theorem createPorts_port_layout_witness :
    defaultContext.ready = true
      ∧ ((defaultContext.createPorts []).1).length = 2 + 2 + 1 + 1 + 1 :=
  ⟨by decide, (createPorts_port_layout defaultContext defaultScript
      { callErr := none, audioIns := 2, audioOuts := 2, midiIns := 1, midiOuts := 1 }
      { decls := [{ name := some "Volume", flow := some "input" }], errAfter := none }
      (by decide) (by decide) (by decide) (by decide) (by decide) (by decide)).1⟩

/-- Witness for C5: reloading the default script on an already prepared node
succeeds and installs a context whose prepare hook ran before the swap. -/
theorem loadScript_prepares_new_context_before_install_witness :
    defaultNode.prepared = true
      ∧ (defaultNodeSwapped.prepared = true
          ∧ defaultNodeSwapped.context.hasPrepared = true
          ∧ defaultNodeSwapped.context.ready = true) :=
  ⟨by decide, loadScript_prepares_new_context_before_install defaultNode
      defaultScript defaultNodeSwapped (by decide) (by decide)⟩

/-- Witness for C6: a ready context whose `node_params` raises after one
declaration still lets `createPorts` return normally. -/
theorem createPorts_error_containment_witness :
    paramErrContext.ready = true
      ∧ (paramErrContext.createPorts []).2 = none :=
  ⟨by decide, (createPorts_error_containment paramErrContext [] scriptParamErr
      { decls := [{ name := some "Volume", flow := some "input" }],
        errAfter := some "params error" }
      (by decide) (by decide) (by decide)).2.2
      (Or.inr ⟨{ callErr := none, audioIns := 2, audioOuts := 2,
                 midiIns := 1, midiOuts := 1 }, by decide, by decide⟩)⟩

/-- Witness for C8: the empty script text at a pristine node. -/
theorem loadScript_empty_script_fails_fast_witness :
    emptyScript.text = ""
      ∧ (Context.validate emptyScript = Result.fail "script contains no code"
          ∧ LuaNode.loadScript node0 emptyScript
              = LoadOutcome.ret (Result.fail "script contains no code") node0) :=
  ⟨rfl, loadScript_empty_script_fails_fast node0 emptyScript rfl⟩

end Element
